import Mathlib

/-!
Shallow embedding of the `minijks` JKS (Java KeyStore) decoder,
translated from `src/src/lib.rs`.

Modelling conventions:
* A byte buffer is a `List Nat` (each element is one byte); a `BufReader`
  cursor is modelled by passing the not-yet-consumed suffix of the buffer
  through every reader and returning the rest alongside the value.
* The Rust code returns its errors as formatted strings boxed in
  `Box<dyn Error>`.  Each distinct error-producing site of the source is
  given its own constructor of `Err`, carrying the data the source
  interpolates into the message; the doc comment of each constructor
  records the exact message of the source.
* `EntryType::from` and the key-pair match arm of `Store::parse` abort the
  process (`panic!` / `unimplemented!`).  Divergence is modelled by the
  `PResult.panic` constructor carrying the panic message, so that the
  embedding is total and panics are observable outcomes.
* The external collaborator `X509Certificate::from_der` is passed in as an
  explicit function argument `derParse : Bytes → Except String χ`, where
  `χ` stands for the collaborator's certificate type.  The spec treats DER
  parsing as an external collaborator, and the core only threads its
  result through.
-/

namespace Minijks

/-- A byte buffer: one `Nat` per byte. -/
abbrev Bytes := List Nat

/-- `const MAGIC: [u8; 4] = [0xFE, 0xED, 0xFE, 0xED];` from the source. -/
def MAGIC : Bytes := [0xFE, 0xED, 0xFE, 0xED]

/-- Big-endian integer value of a byte list, as used by
`u16::from_be_bytes`, `u32::from_be_bytes` and `u64::from_be_bytes`
in the source (the reader functions return the raw byte arrays and the
callers convert). -/
def from_be_bytes (b : Bytes) : Nat :=
  b.foldl (fun acc x => acc * 256 + x) 0

/-- The distinct error-producing sites of the source, one constructor per
distinct message shape.

* `shortRead n` — `"buffer is too short, at least {n} bytes are required"`
  from `read_u16`/`read_u32`/`read_u64`, and
  `"buffer is too short, at least {n} are required"` from `read_bytes`.
* `failedToReadString n` — `"failed to read string: {e}"` from `read_str`
  when the `n`-byte payload cannot be fully read (`e` is the underlying
  `UnexpectedEof` io error; over an in-memory buffer that is the only
  possible io failure, so this too is a buffer-exhaustion error).
* `invalidEncoding bs` — the formatted `FromUtf8Error` from `read_str`
  when the payload bytes `bs` are not valid UTF-8.
* `invalidFormat actual` — `"invalid file format, expected header ..."`
  from `Store::parse` on magic mismatch, carrying the 4 bytes read.
* `unsupportedVersion` — `"unsupported version, supported only version 2"`.
* `unsupportedCertType ct` — `"not supported certificate type: {ct}"` from
  `process_cert`, carrying the certificate-type string that was read
  (as its UTF-8 bytes).
* `certParseError e` — the propagated error of the external
  `X509Certificate::from_der` collaborator. -/
inductive Err where
  | shortRead (needed : Nat)
  | failedToReadString (needed : Nat)
  | invalidEncoding (bs : Bytes)
  | invalidFormat (actual : Bytes)
  | unsupportedVersion
  | unsupportedCertType (ct : Bytes)
  | certParseError (e : String)
deriving DecidableEq

/-- The spec's `ShortRead` error kind: buffer exhausted before a declared
field could be fully read.  Both the `"buffer is too short"` messages and
`read_str`'s `"failed to read string: <eof>"` wrapper are produced only by
buffer exhaustion. -/
def Err.is_short_read : Err → Bool
  | .shortRead _ => true
  | .failedToReadString _ => true
  | _ => false

/-- Outcome of running a piece of code that may also abort the process:
`ok`, a returned error, or a panic with its message. -/
inductive PResult (α : Type) where
  | ok : α → PResult α
  | err : Err → PResult α
  | panic : String → PResult α
deriving DecidableEq

/-- `read_exact` of the Rust standard library over an in-memory buffer:
succeeds iff at least `n` bytes remain, yielding those bytes and the
rest. -/
def read_exact (n : Nat) (data : Bytes) : Option (Bytes × Bytes) :=
  if n ≤ data.length then some (data.take n, data.drop n) else none

/-- `fn read_u16` of the source: reads exactly 2 bytes, else the
"buffer is too short, at least 2 bytes are required" error. -/
def read_u16 (data : Bytes) : Except Err (Bytes × Bytes) :=
  match read_exact 2 data with
  | some r => .ok r
  | none => .error (.shortRead 2)

/-- `fn read_u32` of the source: reads exactly 4 bytes, else the
"buffer is too short, at least 4 bytes are required" error. -/
def read_u32 (data : Bytes) : Except Err (Bytes × Bytes) :=
  match read_exact 4 data with
  | some r => .ok r
  | none => .error (.shortRead 4)

/-- `fn read_u64` of the source: reads exactly 8 bytes, else the
"buffer is too short, at least 8 bytes are required" error. -/
def read_u64 (data : Bytes) : Except Err (Bytes × Bytes) :=
  match read_exact 8 data with
  | some r => .ok r
  | none => .error (.shortRead 8)

/-- `fn read_bytes` of the source: reads exactly `len` bytes, else the
"buffer is too short, at least `len` are required" error. -/
def read_bytes (len : Nat) (data : Bytes) : Except Err (Bytes × Bytes) :=
  match read_exact len data with
  | some r => .ok r
  | none => .error (.shortRead len)

/-- Is `b` a UTF-8 continuation byte (`0x80 ..= 0xBF`)? -/
def utf8Cont (b : Nat) : Bool := 0x80 ≤ b && b ≤ 0xBF

/-- Validity of a byte sequence as UTF-8, exactly the predicate
`String::from_utf8` checks (RFC 3629: no overlong forms, no surrogate
code points, nothing above `U+10FFFF`). -/
def utf8Valid : Bytes → Bool
  | [] => true
  | b :: rest =>
    if b ≤ 0x7F then utf8Valid rest
    else if 0xC2 ≤ b && b ≤ 0xDF then
      match rest with
      | b1 :: rest2 => utf8Cont b1 && utf8Valid rest2
      | [] => false
    else if b = 0xE0 then
      match rest with
      | b1 :: b2 :: rest2 =>
          (0xA0 ≤ b1 && b1 ≤ 0xBF) && utf8Cont b2 && utf8Valid rest2
      | _ => false
    else if (0xE1 ≤ b && b ≤ 0xEC) || (0xEE ≤ b && b ≤ 0xEF) then
      match rest with
      | b1 :: b2 :: rest2 => utf8Cont b1 && utf8Cont b2 && utf8Valid rest2
      | _ => false
    else if b = 0xED then
      match rest with
      | b1 :: b2 :: rest2 =>
          (0x80 ≤ b1 && b1 ≤ 0x9F) && utf8Cont b2 && utf8Valid rest2
      | _ => false
    else if b = 0xF0 then
      match rest with
      | b1 :: b2 :: b3 :: rest2 =>
          (0x90 ≤ b1 && b1 ≤ 0xBF) && utf8Cont b2 && utf8Cont b3 &&
            utf8Valid rest2
      | _ => false
    else if 0xF1 ≤ b && b ≤ 0xF3 then
      match rest with
      | b1 :: b2 :: b3 :: rest2 =>
          utf8Cont b1 && utf8Cont b2 && utf8Cont b3 && utf8Valid rest2
      | _ => false
    else if b = 0xF4 then
      match rest with
      | b1 :: b2 :: b3 :: rest2 =>
          (0x80 ≤ b1 && b1 ≤ 0x8F) && utf8Cont b2 && utf8Cont b3 &&
            utf8Valid rest2
      | _ => false
    else false

/-- `fn read_str` of the source: a `u16` big-endian length prefix, then
that many payload bytes, then UTF-8 validation.  Strings are represented
by their UTF-8 byte sequences (UTF-8 encoding is injective, so equality
of Rust `String`s coincides with equality of these byte lists). -/
def read_str (data : Bytes) : Except Err (Bytes × Bytes) :=
  match read_u16 data with
  | .error e => .error e
  | .ok (lb, rest) =>
    let length := from_be_bytes lb
    match read_exact length rest with
    | none => .error (.failedToReadString length)
    | some (buf, rest2) =>
      if utf8Valid buf then .ok (buf, rest2)
      else .error (.invalidEncoding buf)

/-- `fn read_timestamp` of the source: a big-endian `u64`. -/
def read_timestamp (data : Bytes) : Except Err (Nat × Bytes) :=
  match read_u64 data with
  | .error e => .error e
  | .ok (b, rest) => .ok (from_be_bytes b, rest)

/-- `enum Version` of the source. -/
inductive Version where
  | Unsupported
  | V2
deriving DecidableEq

/-- `impl From<[u8; 4]> for Version`: `2 => V2`, anything else
`Unsupported`. -/
def Version.fromBytes (value : Bytes) : Version :=
  match from_be_bytes value with
  | 2 => .V2
  | _ => .Unsupported

/-- `enum EntryType` of the source. -/
inductive EntryType where
  | KeyPair
  | Certs
deriving DecidableEq

/-- `impl From<[u8; 4]> for EntryType`: `1 => KeyPair`, `2 => Certs`, and
any other tag hits `panic!("invalid entry type")` — the process aborts,
modelled by `PResult.panic`. -/
def EntryType.fromBytes (value : Bytes) : PResult EntryType :=
  match from_be_bytes value with
  | 1 => .ok .KeyPair
  | 2 => .ok .Certs
  | _ => .panic "invalid entry type"

/-- `struct Cert` of the source.  `χ` is the certificate type of the
external DER-parsing collaborator (`X509Certificate` in the source);
`«alias»` holds the UTF-8 bytes of the «alias» string. -/
structure Cert (χ : Type) where
  «alias» : Bytes
  timestamp : Nat
  raw : Bytes
  cert : χ
deriving DecidableEq

/-- `struct KeyPair` of the source (never constructed by `Store::parse`,
whose key-pair arm is `unimplemented!`). -/
structure KeyPair where
  «alias» : Bytes
  timestamp : Nat
  encrypted_key : Bytes
  raw_key : Bytes
deriving DecidableEq

/-- `struct Store` of the source: both sequences are `Option`-wrapped. -/
structure Store (χ : Type) where
  certs : Option (List (Cert χ))
  key_pairs : Option (List KeyPair)
deriving DecidableEq

/-- The UTF-8 bytes of the literal `"X.509"`. -/
def x509Bytes : Bytes := [0x58, 0x2E, 0x35, 0x30, 0x39]

/-- `fn process_cert` of the source: «alias», timestamp, certificate-type
string (must equal `"X.509"`, checked before anything further is read),
`u32` DER length, that many raw DER bytes, then the external collaborator
`derParse` (`X509Certificate::from_der`). -/
def process_cert {χ : Type} (derParse : Bytes → Except String χ)
    (data : Bytes) : Except Err (Cert χ × Bytes) :=
  match read_str data with
  | .error e => .error e
  | .ok («alias», r1) =>
  match read_timestamp r1 with
  | .error e => .error e
  | .ok (timestamp, r2) =>
  match read_str r2 with
  | .error e => .error e
  | .ok (cert_type, r3) =>
  if cert_type ≠ x509Bytes then .error (.unsupportedCertType cert_type)
  else
  match read_u32 r3 with
  | .error e => .error e
  | .ok (clb, r4) =>
  match read_bytes (from_be_bytes clb) r4 with
  | .error e => .error e
  | .ok (cert_der, r5) =>
  match derParse cert_der with
  | .error e => .error (.certParseError e)
  | .ok parsed =>
      .ok ({ «alias» := «alias», timestamp := timestamp, raw := cert_der,
             cert := parsed }, r5)

/-- The entry loop of `Store::parse` (`for _ in 0..entries`): each
iteration reads a 4-byte type tag; `KeyPair` hits
`unimplemented!("key pairs")` (panic message "not implemented: key
pairs"), `Certs` runs `process_cert` and pushes the result onto the
certificate vector.  `kps` mirrors the `keypairs` vector of the source,
which is never pushed to. -/
def parseEntries {χ : Type} (derParse : Bytes → Except String χ) :
    Nat → Bytes → List KeyPair → List (Cert χ) →
      PResult (List KeyPair × List (Cert χ) × Bytes)
  | 0, data, kps, cs => .ok (kps, cs, data)
  | n + 1, data, kps, cs =>
    match read_u32 data with
    | .error e => .err e
    | .ok (tb, r1) =>
      match EntryType.fromBytes tb with
      | .panic m => .panic m
      | .err e => .err e
      | .ok .KeyPair => .panic "not implemented: key pairs"
      | .ok .Certs =>
        match process_cert derParse r1 with
        | .error e => .err e
        | .ok (c, r2) => parseEntries derParse n r2 kps (cs ++ [c])

/-- `Store::parse` of the source: magic (compared byte-wise against
`MAGIC`), version (only 2 accepted), `u32` entry count, then the entry
loop; on success both fields of the `Store` are wrapped in `Some`.  The
`_password` argument is, as in the source, never used. -/
def Store.parse {χ : Type} (derParse : Bytes → Except String χ)
    (data : Bytes) (_password : Bytes) : PResult (Store χ) :=
  match read_u32 data with
  | .error e => .err e
  | .ok (magic, r1) =>
    if magic ≠ MAGIC then .err (.invalidFormat magic)
    else
      match read_u32 r1 with
      | .error e => .err e
      | .ok (vb, r2) =>
        if Version.fromBytes vb = .Unsupported then .err .unsupportedVersion
        else
          match read_u32 r2 with
          | .error e => .err e
          | .ok (cb, r3) =>
            match parseEntries derParse (from_be_bytes cb) r3 [] [] with
            | .panic m => .panic m
            | .err e => .err e
            | .ok (kps, cs, _) =>
                .ok { certs := some cs, key_pairs := some kps }

/-- Modelled from the spec: the Options Resolver (spec §3 `Options` and
§4.5) is absent from the source under `src/` — `Store::parse` there takes
a single ignored `_password: String`, and the example caller passes an
`Option`-typed options value — so the `Options` record is taken from the
spec's words: a default password, a forward-looking `skip_verify` flag,
and a mapping from «alias» to password (modelled as an association list,
looked up by first match). -/
structure Options where
  default_password : String
  skip_verify : Bool
  per_alias_passwords : List (String × String)

/-- Modelled from the spec: `resolve_password(«alias») =
per_alias_passwords[«alias»] if present else default_password` (§4.5). -/
def resolve_password (opts : Options) («alias» : String) : String :=
  match opts.per_alias_passwords.lookup «alias» with
  | some p => p
  | none => opts.default_password

/-- A trivial instantiation of the DER-parsing collaborator, used to
evaluate the decoder on concrete buffers where the collaborator's output
is irrelevant. -/
def dpUnit : Bytes → Except String Unit := fun _ => .ok ()

/-- Correct magic, version 2, entry count 0: the smallest well-formed
keystore image. -/
def emptyStoreBuf : Bytes := MAGIC ++ [0, 0, 0, 2] ++ [0, 0, 0, 0]

/-- Correct magic and version, one entry whose type tag is 3. -/
def badTagBuf : Bytes :=
  MAGIC ++ [0, 0, 0, 2] ++ [0, 0, 0, 1] ++ [0, 0, 0, 3]

/-- Correct magic and version, one key-pair entry (tag 1) with alias
`"a"`, timestamp 0, a 1-byte encrypted-key blob and an empty certificate
chain — a well-formed key-pair entry per the spec's wire format. -/
def keyPairEntryBuf : Bytes :=
  MAGIC ++ [0, 0, 0, 2] ++ [0, 0, 0, 1] ++ [0, 0, 0, 1] ++
    [0, 1, 0x61] ++ [0, 0, 0, 0, 0, 0, 0, 0] ++ [0, 0, 0, 1] ++ [0x2A] ++
    [0, 0, 0, 0]

/-- A certificate entry body whose certificate-type string is `"PGP"`:
alias `"a"`, timestamp 0, cert type `"PGP"`. -/
def pgpEntryBytes : Bytes :=
  [0, 1, 0x61] ++ [0, 0, 0, 0, 0, 0, 0, 0] ++ [0, 3, 0x50, 0x47, 0x50]

/-- Sample options value: default password `"default"`, one per-alias
override for `"bob"`. -/
def optsEx : Options :=
  { default_password := "default", skip_verify := false,
    per_alias_passwords := [("bob", "override")] }

set_option maxRecDepth 4000

theorem read_exact_prefix {n : Nat} (xs ys : Bytes) (h : xs.length = n) :
    read_exact n (xs ++ ys) = some (xs, ys) := by
  subst h
  simp [read_exact, List.take_left, List.drop_left]

theorem read_u32_prefix (xs ys : Bytes) (h : xs.length = 4) :
    read_u32 (xs ++ ys) = .ok (xs, ys) := by
  simp [read_u32, read_exact_prefix xs ys h]

theorem read_u32_cons (a b c d : Nat) (l : Bytes) :
    read_u32 (a :: b :: c :: d :: l) = .ok ([a, b, c, d], l) :=
  read_u32_prefix [a, b, c, d] l rfl

/-- C1: the claim says a well-formed key-pair entry (type tag 1) is read
in full and appended to the Store's key-pair sequence without failing or
panicking.  The source instead hits `unimplemented!("key pairs")` the
moment the tag selects the key-pair arm: on a buffer with correct magic,
version 2, one entry of tag 1 followed by a well-formed key-pair body
(alias `"a"`, timestamp, length-prefixed blob, empty chain), `Store::parse`
aborts with the panic message "not implemented: key pairs". -/
theorem parse_keypair_entry_panics :
    Store.parse dpUnit keyPairEntryBuf [] = .panic "not implemented: key pairs" := by
  decide

/-- C2: the claim says a type tag outside {1, 2} yields the typed error
`InvalidEntryType{actual}` without panicking.  The source's
`impl From<[u8; 4]> for EntryType` instead executes
`panic!("invalid entry type")`: on a buffer with correct magic, version 2,
one entry of tag 3, `Store::parse` aborts the process rather than
returning an error. -/
theorem parse_invalid_tag_panics :
    Store.parse dpUnit badTagBuf [] = .panic "invalid entry type" := by
  decide

/-- C7: a buffer beginning with the magic `FE ED FE ED`, version bytes
`00 00 00 02` and entry count 0 parses, for every DER collaborator and
password and any trailing bytes, to `Ok` of a Store whose certificate and
key-pair sequences are both empty (wrapped in `Some`). -/
theorem parse_empty_store {χ : Type} (dp : Bytes → Except String χ)
    (rest pw : Bytes) :
    Store.parse dp (MAGIC ++ [0, 0, 0, 2] ++ [0, 0, 0, 0] ++ rest) pw =
      .ok { certs := some [], key_pairs := some [] } := by
  simp only [MAGIC, List.cons_append, List.nil_append]
  simp [Store.parse, read_u32_cons, MAGIC, Version.fromBytes, from_be_bytes,
    parseEntries]

/-- C8: `Store::parse` is deterministic.  The embedding is a pure
function, so running it twice on the same buffer yields the same term
definitionally; in particular two successful runs on the same buffer
yield structurally equal Store values (the same aliases, timestamps and
raw DER bytes in the same order, by equality of the whole structure). -/
theorem parse_deterministic {χ : Type} (dp : Bytes → Except String χ)
    (data pw : Bytes) (s₁ s₂ : Store χ)
    (h₁ : Store.parse dp data pw = .ok s₁)
    (h₂ : Store.parse dp data pw = .ok s₂) : s₁ = s₂ := by
  rw [h₁] at h₂
  injection h₂

theorem parse_deterministic_witness :
    (Store.mk (some []) (some []) : Store Unit) = Store.mk (some []) (some []) :=
  parse_deterministic dpUnit emptyStoreBuf [] _ _ (by decide) (by decide)

/-- C9: the `_password` argument of `Store::parse` never influences the
result: the source binds it but never reads it, so the embedding's body
does not mention it and the results of parsing the same buffer under any
two passwords are definitionally equal. -/
theorem parse_password_independent {χ : Type} (dp : Bytes → Except String χ)
    (data p₁ p₂ : Bytes) :
    Store.parse dp data p₁ = Store.parse dp data p₂ := rfl

/-- C10: whenever `Store::parse` returns `Ok`, both `Option`-typed fields
of the resulting Store are populated (`certs = Some _` and
`key_pairs = Some _`): the single `Ok` site of the source wraps both
vectors in `Some`. -/
theorem parse_populates_both_fields {χ : Type} (dp : Bytes → Except String χ)
    (data pw : Bytes) (s : Store χ)
    (h : Store.parse dp data pw = .ok s) :
    s.certs.isSome ∧ s.key_pairs.isSome := by
  unfold Store.parse at h
  repeat' split at h
  all_goals first
    | (injection h with h'; subst h'; exact ⟨rfl, rfl⟩)
    | exact absurd h (by simp)

theorem parse_populates_both_fields_witness :
    (Store.mk (some []) (some []) : Store Unit).certs.isSome ∧
      (Store.mk (some []) (some []) : Store Unit).key_pairs.isSome :=
  parse_populates_both_fields dpUnit emptyStoreBuf [] _ (by decide)

/-- C3: for every buffer shorter than 8 bytes, `Store::parse` returns
either the "buffer is too short" error of the 4-byte reader (`ShortRead`)
or the magic-mismatch "invalid file format" error (`InvalidFormat`); in
particular it never panics and never returns a Store. -/
theorem parse_short_buffer {χ : Type} (dp : Bytes → Except String χ)
    (data pw : Bytes) (h : data.length < 8) :
    Store.parse dp data pw = .err (.shortRead 4) ∨
      ∃ a, Store.parse dp data pw = .err (.invalidFormat a) := by
  by_cases h4 : 4 ≤ data.length
  · have hr : read_u32 data = .ok (data.take 4, data.drop 4) := by
      simp [read_u32, read_exact, h4]
    by_cases hm : data.take 4 = MAGIC
    · left
      have hlt : ¬ 4 ≤ data.length - 4 := by omega
      have hr2 : read_u32 (data.drop 4) = .error (.shortRead 4) := by
        simp [read_u32, read_exact, List.length_drop, hlt]
      simp [Store.parse, hr, hm, hr2]
    · right
      exact ⟨data.take 4, by simp [Store.parse, hr, hm]⟩
  · left
    have hr : read_u32 data = .error (.shortRead 4) := by
      simp [read_u32, read_exact, h4]
    simp [Store.parse, hr]

theorem parse_short_buffer_witness :
    Store.parse dpUnit ([0xFE] : Bytes) [] = .err (.shortRead 4) ∨
      ∃ a, Store.parse dpUnit ([0xFE] : Bytes) [] = .err (.invalidFormat a) :=
  parse_short_buffer dpUnit [0xFE] [] (by decide)

/-- C4: `read_str` (the length-prefixed string reader used for every
string field).  If the 2-byte length prefix cannot be read the result is
the `ShortRead` error of `read_u16`; if the prefix is read but the
declared payload overruns the buffer the result is the
"failed to read string" wrapper of the EOF error, which is likewise a
buffer-exhaustion (`ShortRead`-kind) failure and never a silently
truncated value; if the payload is read in full but is not valid UTF-8
the result is the `InvalidEncoding` error; and if it is valid UTF-8 the
read succeeds with exactly the declared payload. -/
theorem read_str_cases (data : Bytes) :
    (data.length < 2 →
      read_str data = .error (.shortRead 2) ∧
        (Err.shortRead 2).is_short_read = true) ∧
    (∀ lb rest, read_u16 data = .ok (lb, rest) →
      (rest.length < from_be_bytes lb →
        read_str data = .error (.failedToReadString (from_be_bytes lb)) ∧
          (Err.failedToReadString (from_be_bytes lb)).is_short_read = true) ∧
      (from_be_bytes lb ≤ rest.length →
        (utf8Valid (rest.take (from_be_bytes lb)) = false →
          read_str data =
            .error (.invalidEncoding (rest.take (from_be_bytes lb)))) ∧
        (utf8Valid (rest.take (from_be_bytes lb)) = true →
          read_str data =
            .ok (rest.take (from_be_bytes lb), rest.drop (from_be_bytes lb))))) := by
  constructor
  · intro h2
    have hc : ¬ 2 ≤ data.length := by omega
    have hu : read_u16 data = .error (.shortRead 2) := by
      simp [read_u16, read_exact, hc]
    exact ⟨by simp [read_str, hu], rfl⟩
  · intro lb rest hu
    constructor
    · intro hlt
      have hre : read_exact (from_be_bytes lb) rest = none := by
        simp [read_exact]
        omega
      exact ⟨by simp [read_str, hu, hre], rfl⟩
    · intro hle
      have hre : read_exact (from_be_bytes lb) rest =
          some (rest.take (from_be_bytes lb), rest.drop (from_be_bytes lb)) := by
        simp [read_exact, hle]
      constructor
      · intro hbad
        simp [read_str, hu, hre, hbad]
      · intro hgood
        simp [read_str, hu, hre, hgood]

theorem read_str_cases_witness :
    read_str ([0, 1] : Bytes) = .error (.failedToReadString 1) ∧
      (Err.failedToReadString 1).is_short_read = true :=
  ((read_str_cases [0, 1]).2 [0, 1] [] rfl).1 (by decide)

/-- C5: the Options Resolver (modelled from the spec, see `Options` and
`resolve_password`) is a pure lookup: it returns the per-alias override
exactly when `per_alias_passwords` contains the alias, and the default
password otherwise.  Purity and absence of side effects are inherent to
the function: its result depends only on `opts` and the alias. -/
theorem resolve_password_spec (opts : Options) (a : String) :
    (∀ p, opts.per_alias_passwords.lookup a = some p →
      resolve_password opts a = p) ∧
    (opts.per_alias_passwords.lookup a = none →
      resolve_password opts a = opts.default_password) := by
  constructor
  · intro p hp
    simp [resolve_password, hp]
  · intro hn
    simp [resolve_password, hn]

theorem resolve_password_spec_witness :
    resolve_password optsEx "bob" = "override" ∧
      resolve_password optsEx "alice" = "default" :=
  ⟨(resolve_password_spec optsEx "bob").1 "override" (by decide),
   (resolve_password_spec optsEx "alice").2 (by decide)⟩

/-- C6: whenever the certificate-type string of a certificate entry reads
as anything other than `"X.509"` (for example `"PGP"`), `process_cert`
fails with the "not supported certificate type" error carrying the actual
tag.  The conclusion holds for an arbitrary DER collaborator `dp` and does
not mention it, so the collaborator is never invoked for such an entry:
the result is identical for every possible collaborator. -/
theorem process_cert_unsupported_type {χ : Type}
    (dp : Bytes → Except String χ) (data a r1 : Bytes) (ts : Nat)
    (r2 ct r3 : Bytes)
    (h1 : read_str data = .ok (a, r1))
    (h2 : read_timestamp r1 = .ok (ts, r2))
    (h3 : read_str r2 = .ok (ct, r3))
    (h4 : ct ≠ x509Bytes) :
    process_cert dp data = .error (.unsupportedCertType ct) := by
  simp [process_cert, h1, h2, h3, h4]

theorem process_cert_unsupported_type_witness :
    process_cert dpUnit pgpEntryBytes =
      .error (.unsupportedCertType [0x50, 0x47, 0x50]) :=
  process_cert_unsupported_type dpUnit pgpEntryBytes [0x61]
    ([0, 0, 0, 0, 0, 0, 0, 0] ++ [0, 3, 0x50, 0x47, 0x50]) 0
    ([0, 3, 0x50, 0x47, 0x50]) [0x50, 0x47, 0x50] [] (by rfl) (by rfl)
    (by rfl) (by decide)

end Minijks
